import Mathlib

/-!
Verification development for the Flow archive Access API layer
(`api.Server` in the repository, package `api`, together with the
`archive.Reader` index interface it consumes).

The Go code is shallowly embedded as follows:

* Identifiers (block IDs, transaction IDs, collection IDs, seal IDs) and
  opaque payloads (Cadence values, byte strings) are modelled as `Nat`
  (byte slices as `List Nat`).  `flow.HashToID` merely reinterprets the
  request bytes as an identifier, so requests carry the identifier
  directly.
* Heights are `Nat`; the Go `uint64` wrap-around of the height counter in
  `GetEventsForHeightRange` is modelled explicitly with `% 2 ^ 64`.
* A Go call returning `(value, error)` on the `archive.Reader` interface
  is modelled as `Except String value`.  The API endpoints themselves
  return `Res value`, which additionally has a `panic` outcome (Go
  runtime panic, e.g. a nil-pointer dereference) and a `diverge` outcome
  (an infinite loop).
* External library collaborators used by the endpoints — the signer-ID
  decoder (`signature.NewBlockSignerDecoder(nil).DecodeSignerIDs`), the
  system chunk transaction builder (`blueprints.SystemChunkTransaction`),
  and the Cadence JSON codec (`json.Decode` / `json.Encode`) — are
  carried as fields of the `Server` structure, since only their external
  contract matters here.
* The lossless protobuf projections `convert.BlockHeaderToMessage`,
  `convert.MessageToBlockHeader`, `convert.TransactionToMessage` and
  `convert.EventToMessage` are modelled as total conversions that keep
  every field the endpoints read.  Likewise `ptypes.TimestampProto` is
  modelled as the identity on (already valid) timestamps.
-/

namespace Archive

/-- Outcome of an API endpoint call: a successful response, a Go error,
a Go runtime panic (nil-pointer dereference), or an infinite loop. -/
inductive Res (α : Type) where
  | ok : α → Res α
  | err : String → Res α
  | panic : Res α
  | diverge : Res α
  deriving DecidableEq

/-- `flow.Header`: the per-height block metadata read by the endpoints.
`id` stands for the derived `header.ID()` digest. -/
structure Header where
  id : Nat
  parentID : Nat
  timestamp : Nat
  chainID : String
  parentVoterSigData : List Nat
  deriving DecidableEq

/-- `flow.Seal`: the fields projected into block responses. -/
structure Seal where
  blockID : Nat
  resultID : Nat
  deriving DecidableEq

/-- `flow.CollectionGuarantee`: only the signature is read. -/
structure Guarantee where
  signature : Nat
  deriving DecidableEq

/-- `flow.LightCollection`: an ordered list of transaction IDs. -/
structure Collection where
  transactions : List Nat
  deriving DecidableEq

/-- `flow.TransactionBody` and its protobuf message, modelled opaquely. -/
structure Transaction where
  id : Nat
  deriving DecidableEq

/-- `flow.TransactionResult`: only the error message is read. -/
structure TxResult where
  errorMessage : String
  deriving DecidableEq

/-- `flow.Event`: the fields read by the endpoints. -/
structure Event where
  txIndex : Nat
  typ : String
  payload : Nat
  deriving DecidableEq

/-- `entities.TransactionStatus` (full protobuf enum). -/
inductive TxStatus where
  | unknown
  | pending
  | finalized
  | executed
  | sealed
  | expired
  deriving DecidableEq

/-- The `archive.Reader` index interface (§6 of the spec): height- and
ID-keyed lookups; every call either yields a value or a Go error. -/
structure Reader where
  first : Except String Nat
  last : Except String Nat
  header : Nat → Except String Header
  heightForBlock : Nat → Except String Nat
  heightForTransaction : Nat → Except String Nat
  sealsByHeight : Nat → Except String (List Nat)
  sealByID : Nat → Except String Seal
  collectionsByHeight : Nat → Except String (List Nat)
  guarantee : Nat → Except String Guarantee
  collection : Nat → Except String Collection
  transaction : Nat → Except String Transaction
  result : Nat → Except String TxResult
  transactionsByHeight : Nat → Except String (List Nat)
  events : Nat → List String → Except String (List Event)

/-- The script invoker interface: `Script(height, script, args)` and
`Account(height, address)`.  Cadence values and accounts are opaque. -/
structure Invoker where
  script : Nat → List Nat → List Nat → Except String Nat
  account : Nat → Nat → Except String Nat

/-- The API server (`api.Server`), bundling the index reader, the
invoker, and the external library collaborators it calls. -/
structure Server where
  index : Reader
  invoker : Invoker
  decodeSignerIDs : Header → Except String (List Nat)
  systemChunkTransaction : String → Except String Transaction
  decodeArg : List Nat → Except String Nat
  encodeValue : Nat → Except String (List Nat)

/-- `entities.BlockHeader` message, as filled by
`convert.BlockHeaderToMessage(header, signerIDs)`. -/
structure HeaderMsg where
  id : Nat
  parentID : Nat
  timestamp : Nat
  chainID : String
  signerIDs : List Nat
  parentVoterSigData : List Nat
  deriving DecidableEq

/-- `entities.BlockSeal` message. -/
structure SealMsg where
  blockId : Nat
  executionReceiptId : Nat
  executionReceiptSignatures : List Nat
  deriving DecidableEq

/-- `entities.CollectionGuarantee` message. -/
structure GuaranteeMsg where
  collectionId : Nat
  signatures : List Nat
  deriving DecidableEq

/-- `entities.Block` message, as assembled by `GetBlockByHeight`. -/
structure BlockMsg where
  id : Nat
  height : Nat
  parentID : Nat
  timestamp : Nat
  collectionGuarantees : List GuaranteeMsg
  blockSeals : List SealMsg
  signatures : List (List Nat)
  deriving DecidableEq

/-- `access.BlockHeaderResponse`. -/
structure BlockHeaderResponse where
  block : HeaderMsg
  deriving DecidableEq

/-- `access.BlockResponse`. -/
structure BlockResponse where
  block : BlockMsg
  deriving DecidableEq

/-- `access.TransactionResponse`. -/
structure TransactionResponse where
  transaction : Transaction
  deriving DecidableEq

/-- `access.TransactionResultResponse`. -/
structure TransactionResultResponse where
  status : TxStatus
  statusCode : Nat
  errorMessage : String
  events : List Event
  blockId : Nat
  deriving DecidableEq

/-- `access.TransactionResultsResponse`. -/
structure TransactionResultsResponse where
  transactionResults : List TransactionResultResponse
  deriving DecidableEq

/-- `access.TransactionsResponse`. -/
structure TransactionsResponse where
  transactions : List Transaction
  deriving DecidableEq

/-- `access.EventsResponse_Result`. -/
structure EventsResult where
  blockId : Nat
  blockHeight : Nat
  blockTimestamp : Nat
  events : List Event
  deriving DecidableEq

/-- `access.EventsResponse`. -/
structure EventsResponse where
  results : List EventsResult
  deriving DecidableEq

/-- `access.ExecuteScriptResponse`. -/
structure ExecuteScriptResponse where
  value : List Nat
  deriving DecidableEq

/-- `access.ExecuteScriptAtBlockHeightRequest`. -/
structure ExecuteScriptAtBlockHeightRequest where
  blockHeight : Nat
  script : List Nat
  arguments : List (List Nat)
  deriving DecidableEq

/-- `access.GetEventsForHeightRangeRequest`. -/
structure GetEventsForHeightRangeRequest where
  typ : String
  startHeight : Nat
  endHeight : Nat
  deriving DecidableEq

/-- `access.GetEventsForBlockIDsRequest`. -/
structure GetEventsForBlockIDsRequest where
  typ : String
  blockIds : List Nat
  deriving DecidableEq

/-- `convert.BlockHeaderToMessage`: lossless projection of a header and
its decoded signer IDs into the protobuf header message. -/
def blockHeaderToMessage (h : Header) (signerIDs : List Nat) :
    Except String HeaderMsg :=
  Except.ok
    { id := h.id
      parentID := h.parentID
      timestamp := h.timestamp
      chainID := h.chainID
      signerIDs := signerIDs
      parentVoterSigData := h.parentVoterSigData }

/-- `convert.MessageToBlockHeader`: recovers the header fields from the
protobuf header message. -/
def messageToBlockHeader (m : HeaderMsg) : Except String Header :=
  Except.ok
    { id := m.id
      parentID := m.parentID
      timestamp := m.timestamp
      chainID := m.chainID
      parentVoterSigData := m.parentVoterSigData }

/-- `convert.TransactionToMessage`: the transaction message keeps every
field we model. -/
def transactionToMessage (t : Transaction) : Transaction := t

/-- `convert.EventToMessage`: the event message keeps every field we
model. -/
def eventToMessage (e : Event) : Event := e

/-- `GetBlockHeaderByHeight`: fetch the header, decode its signer IDs,
convert to the RPC entity.  Each failing step aborts with a wrapped
error, mirroring the Go error checks. -/
def GetBlockHeaderByHeight (s : Server) (height : Nat) :
    Res BlockHeaderResponse :=
  match s.index.header height with
  | .error e => .err ("could not retrieve block header at height: " ++ e)
  | .ok header =>
    match s.decodeSignerIDs header with
    | .error e => .err ("could not decode signer ids at height: " ++ e)
    | .ok signerIDs =>
      match blockHeaderToMessage header signerIDs with
      | .error e => .err ("could not convert block header to RPC entity: " ++ e)
      | .ok blockMsg => .ok { block := blockMsg }

/-- `GetBlockHeaderByID`: resolve the block ID to a height, then
delegate to `GetBlockHeaderByHeight`. -/
def GetBlockHeaderByID (s : Server) (id : Nat) : Res BlockHeaderResponse :=
  match s.index.heightForBlock id with
  | .error e => .err ("could not get height for block: " ++ e)
  | .ok height => GetBlockHeaderByHeight s height

/-- `GetLatestBlockHeader`: delegate to `GetBlockHeaderByHeight` at
`Last()`. -/
def GetLatestBlockHeader (s : Server) : Res BlockHeaderResponse :=
  match s.index.last with
  | .error e => .err ("could not retrieve last block height: " ++ e)
  | .ok height => GetBlockHeaderByHeight s height

/-- The seal-assembly loop of `GetBlockByHeight`: fetch each seal by ID
and project it into an `entities.BlockSeal` whose signature list is
filled with the empty list, short-circuiting on the first failure. -/
def buildSeals (idx : Reader) : List Nat → Except String (List SealMsg)
  | [] => .ok []
  | sealID :: rest =>
    match idx.sealByID sealID with
    | .error e => .error ("could not get seal with ID: " ++ e)
    | .ok sl =>
      match buildSeals idx rest with
      | .error e => .error e
      | .ok tail =>
        .ok ({ blockId := sl.blockID
               executionReceiptId := sl.resultID
               executionReceiptSignatures := [] } :: tail)

/-- The guarantee-assembly loop of `GetBlockByHeight`: fetch each
guarantee by collection ID and project it, short-circuiting on the first
failure. -/
def buildGuarantees (idx : Reader) :
    List Nat → Except String (List GuaranteeMsg)
  | [] => .ok []
  | collID :: rest =>
    match idx.guarantee collID with
    | .error e => .error ("could not get collection with ID: " ++ e)
    | .ok guarantee =>
      match buildGuarantees idx rest with
      | .error e => .error e
      | .ok tail =>
        .ok ({ collectionId := collID
               signatures := [guarantee.signature] } :: tail)

/-- `GetBlockByHeight`: assemble the full block from the header, the
seals at that height, and the collection guarantees at that height. -/
def GetBlockByHeight (s : Server) (height : Nat) : Res BlockResponse :=
  match s.index.header height with
  | .error e => .err ("could not get header for height: " ++ e)
  | .ok header =>
    match s.index.sealsByHeight height with
    | .error e => .err ("could not get seals for height: " ++ e)
    | .ok sealIDs =>
      match buildSeals s.index sealIDs with
      | .error e => .err e
      | .ok seals =>
        match s.index.collectionsByHeight height with
        | .error e => .err ("could not get collections for height: " ++ e)
        | .ok collIDs =>
          match buildGuarantees s.index collIDs with
          | .error e => .err e
          | .ok collections =>
            .ok { block :=
              { id := header.id
                height := height
                parentID := header.parentID
                timestamp := header.timestamp
                collectionGuarantees := collections
                blockSeals := seals
                signatures := [header.parentVoterSigData] } }

/-- `GetBlockByID`: resolve the block ID to a height, then delegate to
`GetBlockByHeight`. -/
def GetBlockByID (s : Server) (id : Nat) : Res BlockResponse :=
  match s.index.heightForBlock id with
  | .error e => .err ("could not get height for block: " ++ e)
  | .ok height => GetBlockByHeight s height

/-- `GetLatestBlock`: delegate to `GetBlockByHeight` at `Last()`. -/
def GetLatestBlock (s : Server) : Res BlockResponse :=
  match s.index.last with
  | .error e => .err ("could not get last height: " ++ e)
  | .ok height => GetBlockByHeight s height

/-- `GetTransaction`: fetch the transaction body and convert it. -/
def GetTransaction (s : Server) (id : Nat) : Res TransactionResponse :=
  match s.index.transaction id with
  | .error e => .err ("could not retrieve transaction: " ++ e)
  | .ok tx => .ok { transaction := transactionToMessage tx }

/-- `GetTransactionResult`: fetch the result, resolve the transaction
height, fetch the containing header, compute the status code from the
error message, derive `SEALED` or `EXECUTED` by comparing the height
with `Last()`, and attach the events at that height (no type filter). -/
def GetTransactionResult (s : Server) (id : Nat) :
    Res TransactionResultResponse :=
  match s.index.result id with
  | .error e => .err ("could not retrieve transaction result: " ++ e)
  | .ok result =>
    match s.index.heightForTransaction id with
    | .error e => .err ("could not retrieve block height: " ++ e)
    | .ok height =>
      match s.index.header height with
      | .error e => .err ("could not retrieve block header: " ++ e)
      | .ok block =>
        match s.index.last with
        | .error e => .err ("could not retrieve last height: " ++ e)
        | .ok sealedHeight =>
          match s.index.events height [] with
          | .error e => .err ("could not retrieve events: " ++ e)
          | .ok events =>
            .ok { status :=
                    if height > sealedHeight then TxStatus.executed
                    else TxStatus.sealed
                  statusCode := if result.errorMessage = "" then 1 else 0
                  errorMessage := result.errorMessage
                  events := events.map eventToMessage
                  blockId := block.id }

/-- The per-transaction loop of `GetTransactionResultsByBlockID`:
resolve each member through `GetTransactionResult`, short-circuiting on
the first failure. -/
def buildTxResults (s : Server) :
    List Nat → Res (List TransactionResultResponse)
  | [] => .ok []
  | tid :: rest =>
    match GetTransactionResult s tid with
    | .err e => .err ("could not get transaction for id: " ++ e)
    | .panic => .panic
    | .diverge => .diverge
    | .ok r =>
      match buildTxResults s rest with
      | .ok tail => .ok (r :: tail)
      | .err e => .err e
      | .panic => .panic
      | .diverge => .diverge

/-- `GetTransactionResultsByBlockID`: resolve the block to a height,
fetch the transaction IDs at that height, and resolve each of them
through `GetTransactionResult`. -/
def GetTransactionResultsByBlockID (s : Server) (blockId : Nat) :
    Res TransactionResultsResponse :=
  match s.index.heightForBlock blockId with
  | .error e => .err ("could not get height for block: " ++ e)
  | .ok height =>
    match s.index.transactionsByHeight height with
    | .error e => .err ("could not get transactions for height: " ++ e)
    | .ok transactions =>
      match buildTxResults s transactions with
      | .ok rs => .ok { transactionResults := rs }
      | .err e => .err e
      | .panic => .panic
      | .diverge => .diverge

/-- `GetTransactionResultByIndex`: delegate to
`GetTransactionResultsByBlockID` and return the first result that owns
an event whose `TransactionIndex` matches the requested index.

The Go code does NOT check the error returned by
`GetTransactionResultsByBlockID` before ranging over
`resp.TransactionResults`; on failure `resp` is nil and the field access
dereferences a nil pointer, so the failure branch is a runtime panic,
modelled by `Res.panic`.  When the call succeeds and no event matches,
the Go code returns a wrapped error. -/
def GetTransactionResultByIndex (s : Server) (blockId index : Nat) :
    Res TransactionResultResponse :=
  match GetTransactionResultsByBlockID s blockId with
  | .ok resp =>
    match resp.transactionResults.find?
        (fun r => r.events.any (fun ev => ev.txIndex == index)) with
    | some r => .ok r
    | none => .err "could not get transactions for index"
  | .err _ => .panic
  | .panic => .panic
  | .diverge => .diverge

/-- The per-transaction loop of `GetTransactionsByBlockID`: fetch each
transaction through `GetTransaction`, short-circuiting on the first
failure. -/
def buildTxMessages (s : Server) : List Nat → Res (List Transaction)
  | [] => .ok []
  | tid :: rest =>
    match GetTransaction s tid with
    | .err e => .err ("could not get transactions for id: " ++ e)
    | .panic => .panic
    | .diverge => .diverge
    | .ok resp =>
      match buildTxMessages s rest with
      | .ok tail => .ok (resp.transaction :: tail)
      | .err e => .err e
      | .panic => .panic
      | .diverge => .diverge

/-- `GetTransactionsByBlockID`: resolve the block to a height, fetch
the header (through `GetBlockHeaderByHeight` and a message round-trip),
fetch each indexed transaction, then append the system chunk
transaction built from the header chain ID.

The Go code ignores the error returned by
`blueprints.SystemChunkTransaction` and immediately dereferences the
returned pointer, so a failing builder is a runtime panic
(`Res.panic`). -/
def GetTransactionsByBlockID (s : Server) (blockId : Nat) :
    Res TransactionsResponse :=
  match s.index.heightForBlock blockId with
  | .error e => .err ("could not get height for block: " ++ e)
  | .ok height =>
    match GetBlockHeaderByHeight s height with
    | .err e => .err ("could not get header for height: " ++ e)
    | .panic => .panic
    | .diverge => .diverge
    | .ok headerResp =>
      match messageToBlockHeader headerResp.block with
      | .error e => .err ("could not convert header for height: " ++ e)
      | .ok header =>
        match s.index.transactionsByHeight height with
        | .error e => .err ("could not get transactions for height: " ++ e)
        | .ok transactions =>
          match buildTxMessages s transactions with
          | .err e => .err e
          | .panic => .panic
          | .diverge => .diverge
          | .ok txs =>
            match s.systemChunkTransaction header.chainID with
            | .error _ => .panic
            | .ok systemTx =>
              .ok { transactions := txs ++ [transactionToMessage systemTx] }

/-- The argument-decoding loop of `ExecuteScriptAtBlockHeight`: decode
each wire-encoded argument with the Cadence JSON codec, aborting on the
first failure with a wrapped error. -/
def decodeArguments (dec : List Nat → Except String Nat) :
    List (List Nat) → Except String (List Nat)
  | [] => .ok []
  | arg :: rest =>
    match dec arg with
    | .error e => .error ("could not decode script argument: " ++ e)
    | .ok val =>
      match decodeArguments dec rest with
      | .error e => .error e
      | .ok tail => .ok (val :: tail)

/-- `ExecuteScriptAtBlockHeight`: decode every argument, invoke the
script invoker at the requested height, and encode the returned value.
The invoker is only reached after all arguments decode. -/
def ExecuteScriptAtBlockHeight (s : Server)
    (req : ExecuteScriptAtBlockHeightRequest) : Res ExecuteScriptResponse :=
  match decodeArguments s.decodeArg req.arguments with
  | .error e => .err e
  | .ok args =>
    match s.invoker.script req.blockHeight req.script args with
    | .error e => .err ("could not execute script: " ++ e)
    | .ok value =>
      match s.encodeValue value with
      | .error e => .err ("could not encode script result: " ++ e)
      | .ok result => .ok { value := result }

/-- The event-type filter shared by both event endpoints: an empty type
string means no filter, otherwise a single-element filter list. -/
def typesOf (t : String) : List String := if t = "" then [] else [t]

/-- The per-height body of the `GetEventsForHeightRange` loop: fetch the
events (with the optional type filter) and the header, and emit one
result record.  `ptypes.TimestampProto` is modelled as the identity on
the stored (already valid) timestamp. -/
def processHeight (s : Server) (types : List String) (height : Nat) :
    Except String EventsResult :=
  match s.index.events height types with
  | .error e => .error ("could not get events at height: " ++ e)
  | .ok ee =>
    match s.index.header height with
    | .error e => .error ("could not get header at height: " ++ e)
    | .ok header =>
      .ok { blockId := header.id
            blockHeight := height
            blockTimestamp := header.timestamp
            events := ee.map eventToMessage }

/-- `2 ^ 64`: the modulus of Go `uint64` arithmetic.  The height counter
of the `GetEventsForHeightRange` loop is a `uint64` and wraps at this
modulus. -/
def U64MOD : Nat := 2 ^ 64

/-- The `GetEventsForHeightRange` loop,
`for height := startHeight; height <= endHeight; height++`, with the
`uint64` wrap of the increment made explicit.

The loop is embedded with explicit fuel; `GetEventsForHeightRange`
supplies `U64MOD + 1` units.  Exhausting that fuel coincides exactly
with non-termination of the Go loop: the branch taken at each iteration
depends only on the current height (an integer modulo `2 ^ 64`) and on
the pure index, so a run of `2 ^ 64 + 1` iterations without returning
revisits the starting height with identical control state and therefore
never returns. -/
def eventsLoop (s : Server) (types : List String) (endHeight : Nat) :
    Nat → Nat → List EventsResult → Res EventsResponse
  | 0, _, _ => .diverge
  | fuel + 1, height, acc =>
    if height > endHeight then .ok { results := acc }
    else
      match processHeight s types height with
      | .error e => .err e
      | .ok r => eventsLoop s types endHeight fuel ((height + 1) % U64MOD) (acc ++ [r])

/-- `GetEventsForHeightRange`: iterate the heights from `StartHeight`
while the (wrapping) counter is at most `EndHeight`, emitting one result
record per visited height. -/
def GetEventsForHeightRange (s : Server)
    (req : GetEventsForHeightRangeRequest) : Res EventsResponse :=
  eventsLoop s (typesOf req.typ) req.endHeight (U64MOD + 1) req.startHeight []

/-- The per-ID body of the `GetEventsForBlockIDs` loop: resolve the
block ID to a height, fetch the events (with the optional type filter)
and the header, and emit one result record carrying the supplied block
ID. -/
def processBlockID (s : Server) (types : List String) (id : Nat) :
    Except String EventsResult :=
  match s.index.heightForBlock id with
  | .error e => .error ("could not get height of block with ID: " ++ e)
  | .ok height =>
    match s.index.events height types with
    | .error e => .error ("could not get events at height: " ++ e)
    | .ok ee =>
      match s.index.header height with
      | .error e => .error ("could not get header at height: " ++ e)
      | .ok header =>
        .ok { blockId := id
              blockHeight := height
              blockTimestamp := header.timestamp
              events := ee.map eventToMessage }

/-- The `GetEventsForBlockIDs` loop: process the supplied block IDs in
their given order, short-circuiting on the first failure. -/
def blockIDsLoop (s : Server) (types : List String) :
    List Nat → List EventsResult → Res EventsResponse
  | [], acc => .ok { results := acc }
  | id :: rest, acc =>
    match processBlockID s types id with
    | .error e => .err e
    | .ok r => blockIDsLoop s types rest (acc ++ [r])

/-- `GetEventsForBlockIDs`: one result record per supplied block ID, in
the order of the request list. -/
def GetEventsForBlockIDs (s : Server) (req : GetEventsForBlockIDsRequest) :
    Res EventsResponse :=
  blockIDsLoop s (typesOf req.typ) req.blockIds []

/-- `SendTransaction`: unconditionally rejected; the request payload is
opaque and ignored. -/
def SendTransaction (_s : Server) (_req : Nat) : Res Unit :=
  .err "SendTransaction is not implemented by the Flow DPS API; please use the Flow Access API on a Flow access node directly"

/-- `GetLatestProtocolStateSnapshot`: unconditionally rejected. -/
def GetLatestProtocolStateSnapshot (_s : Server) (_req : Unit) : Res Unit :=
  .err "GetLatestProtocolSnapshot is not implemented by the Flow DPS API; please use the Flow Access API on a Flow access node directly"

/-- `GetExecutionResultForBlockID`: unconditionally rejected. -/
def GetExecutionResultForBlockID (_s : Server) (_req : Nat) : Res Unit :=
  .err "GetExecutionResultForBlockID is not implemented by the Flow DPS API; please use the Flow Access API on a Flow access node directly"

/-! Concrete index readers and servers used to evaluate the endpoints
on explicit inputs. -/

/-- An index with nothing in it: every lookup fails. -/
def emptyReader : Reader where
  first := .error "not found"
  last := .error "not found"
  header := fun _ => .error "not found"
  heightForBlock := fun _ => .error "not found"
  heightForTransaction := fun _ => .error "not found"
  sealsByHeight := fun _ => .error "not found"
  sealByID := fun _ => .error "not found"
  collectionsByHeight := fun _ => .error "not found"
  guarantee := fun _ => .error "not found"
  collection := fun _ => .error "not found"
  transaction := fun _ => .error "not found"
  result := fun _ => .error "not found"
  transactionsByHeight := fun _ => .error "not found"
  events := fun _ _ => .error "not found"

/-- An invoker that rejects every call. -/
def noInvoker : Invoker where
  script := fun _ _ _ => .error "no invoker"
  account := fun _ _ => .error "no invoker"

/-- A server over the empty index, with trivially succeeding external
collaborators. -/
def baseServer : Server where
  index := emptyReader
  invoker := noInvoker
  decodeSignerIDs := fun _ => .ok []
  systemChunkTransaction := fun _ => .ok { id := 0 }
  decodeArg := fun _ => .ok 0
  encodeValue := fun _ => .ok []

/-- A sample header used by the concrete indices. -/
def hdr0 : Header where
  id := 100
  parentID := 99
  timestamp := 1234
  chainID := "flow-mainnet"
  parentVoterSigData := [1]

/-- An index whose block, header and event lookups succeed at every
height (each block ID resolves to the height equal to the ID, every
height carries the sample header and no events). -/
def totalReader : Reader :=
  { emptyReader with
    header := fun _ => .ok hdr0
    heightForBlock := fun b => .ok b
    events := fun _ _ => .ok [] }

/-- The server over the all-succeeding index. -/
def totalServer : Server := { baseServer with index := totalReader }

/-- Index for the transaction-status witness: transaction at height 10,
last indexed height 12. -/
def c1Reader : Reader :=
  { emptyReader with
    result := fun _ => .ok { errorMessage := "" }
    heightForTransaction := fun _ => .ok 10
    header := fun _ => .ok hdr0
    last := .ok 12
    events := fun _ _ => .ok [] }

/-- Server for the transaction-status witness. -/
def c1Server : Server := { baseServer with index := c1Reader }

/-- The response produced by `GetTransactionResult` on `c1Server`. -/
def c1Resp : TransactionResultResponse where
  status := TxStatus.sealed
  statusCode := 1
  errorMessage := ""
  events := []
  blockId := 100

/-- Index for the block-by-ID witness: heights 3 to 5 indexed, the
sample header stored at height 4 and resolvable by its ID. -/
def c2Reader : Reader :=
  { emptyReader with
    first := .ok 3
    last := .ok 5
    header := fun h => if h = 4 then .ok hdr0 else .error "not found"
    heightForBlock := fun b => if b = 100 then .ok 4 else .error "not found" }

/-- Server for the block-by-ID witness. -/
def c2Server : Server := { baseServer with index := c2Reader }

/-- Index for the seal-projection witness: one seal at height 0. -/
def sealReader : Reader :=
  { emptyReader with
    header := fun _ => .ok hdr0
    sealsByHeight := fun _ => .ok [7]
    sealByID := fun _ => .ok { blockID := 21, resultID := 22 }
    collectionsByHeight := fun _ => .ok [] }

/-- Server for the seal-projection witness. -/
def sealServer : Server := { baseServer with index := sealReader }

/-- The response produced by `GetBlockByHeight` on `sealServer` at
height 0. -/
def c7Resp : BlockResponse where
  block :=
    { id := 100
      height := 0
      parentID := 99
      timestamp := 1234
      collectionGuarantees := []
      blockSeals :=
        [{ blockId := 21, executionReceiptId := 22,
           executionReceiptSignatures := [] }]
      signatures := [[1]] }

/-- A server whose Cadence argument decoder rejects every argument. -/
def badDecodeServer : Server :=
  { baseServer with decodeArg := fun _ => .error "bad" }

/-- Index for the transactions-by-block witness: block 1 at height 0
with a single indexed transaction. -/
def c9Reader : Reader :=
  { emptyReader with
    heightForBlock := fun _ => .ok 0
    header := fun _ => .ok hdr0
    transactionsByHeight := fun _ => .ok [11]
    transaction := fun t => .ok { id := t } }

/-- Server for the transactions-by-block witness; its system chunk
builder returns transaction 77. -/
def c9Server : Server :=
  { baseServer with
    index := c9Reader
    systemChunkTransaction := fun _ => .ok { id := 77 } }

/-- Every seal of a block response carries an empty signature list and
the `BlockID` and `ResultID` of a seal stored in the index. -/
def SealsFromIndex (s : Server) (resp : BlockResponse) : Prop :=
  ∀ sm ∈ resp.block.blockSeals,
    sm.executionReceiptSignatures = [] ∧
    ∃ sealID sl, s.index.sealByID sealID = Except.ok sl ∧
      sm.blockId = sl.blockID ∧ sm.executionReceiptId = sl.resultID

/-- Every per-height lookup of the event range engine succeeds on the
all-succeeding index. -/
def totalSucceeds : Prop :=
  ∀ h : Nat, ∃ r, processHeight totalServer (typesOf "") h = Except.ok r

/-! Theorems. -/

/-- Claim C1: for every transaction result request where the
transaction resolves to height `h` and the index's last indexed height
is `Last()`, `GetTransactionResult` reports status `SEALED` if and only
if `h ≤ Last()`, and status `EXECUTED` if and only if `h > Last()`; no
other status value is ever produced. -/
theorem c1_transaction_status (s : Server) (txID h lastH : Nat)
    (resp : TransactionResultResponse)
    (hh : s.index.heightForTransaction txID = Except.ok h)
    (hl : s.index.last = Except.ok lastH)
    (hok : GetTransactionResult s txID = Res.ok resp) :
    (resp.status = TxStatus.sealed ↔ h ≤ lastH) ∧
    (resp.status = TxStatus.executed ↔ lastH < h) ∧
    (resp.status = TxStatus.sealed ∨ resp.status = TxStatus.executed) := by
  cases hres : s.index.result txID with
  | error e => simp [GetTransactionResult, hres] at hok
  | ok result =>
    cases hhdr : s.index.header h with
    | error e => simp [GetTransactionResult, hres, hh, hhdr] at hok
    | ok block =>
      cases hev : s.index.events h [] with
      | error e => simp [GetTransactionResult, hres, hh, hhdr, hl, hev] at hok
      | ok events =>
        simp only [GetTransactionResult, hres, hh, hhdr, hl, hev] at hok
        injection hok with hok
        subst hok
        by_cases hc : lastH < h
        · simp only [gt_iff_lt, if_pos hc]
          refine ⟨by simp; omega, by simp [hc], Or.inr trivial⟩
        · simp only [gt_iff_lt, if_neg hc]
          refine ⟨by simp; omega, by simp; omega, Or.inl trivial⟩

/-- Witness for C1: on the concrete index `c1Reader` (transaction at
height 10, last height 12) the status is `SEALED`. -/
theorem c1_transaction_status_witness :
    (c1Resp.status = TxStatus.sealed ↔ 10 ≤ 12) ∧
    (c1Resp.status = TxStatus.executed ↔ 12 < 10) ∧
    (c1Resp.status = TxStatus.sealed ∨ c1Resp.status = TxStatus.executed) :=
  c1_transaction_status c1Server 5 10 12 c1Resp rfl rfl rfl

/-- Claim C2: for every height `h` with `First() ≤ h ≤ Last()`, calling
`GetBlockByID` with the ID of the header stored at height `h` returns a
response identical to calling `GetBlockByHeight` with `h` directly, and
likewise `GetBlockHeaderByID` versus `GetBlockHeaderByHeight`. -/
theorem c2_resolve_by_id_matches_by_height (s : Server)
    (h fst lst : Nat) (hdr : Header)
    (hf : s.index.first = Except.ok fst)
    (hl : s.index.last = Except.ok lst)
    (hlo : fst ≤ h) (hhi : h ≤ lst)
    (hhd : s.index.header h = Except.ok hdr)
    (hres : s.index.heightForBlock hdr.id = Except.ok h) :
    GetBlockByID s hdr.id = GetBlockByHeight s h ∧
    GetBlockHeaderByID s hdr.id = GetBlockHeaderByHeight s h := by
  constructor
  · simp [GetBlockByID, hres]
  · simp [GetBlockHeaderByID, hres]

/-- Witness for C2: on the concrete index `c2Reader` (heights 3 to 5,
header `hdr0` at height 4) both by-ID calls agree with the by-height
calls. -/
theorem c2_resolve_by_id_matches_by_height_witness :
    GetBlockByID c2Server hdr0.id = GetBlockByHeight c2Server 4 ∧
    GetBlockHeaderByID c2Server hdr0.id = GetBlockHeaderByHeight c2Server 4 :=
  c2_resolve_by_id_matches_by_height c2Server 4 3 5 hdr0 rfl rfl
    (by norm_num) (by norm_num) rfl rfl

/-- Claim C4 (code bug): when `GetTransactionResultsByBlockID` fails
(here: the block ID is absent from the empty index),
`GetTransactionResultByIndex` does not return the wrapped error — the Go
code skips the error check and dereferences the nil response, a runtime
panic. -/
theorem c4_result_by_index_panics_on_lookup_failure :
    GetTransactionResultByIndex baseServer 1 0 = Res.panic := rfl

/-- Claim C6: `SendTransaction`, `GetLatestProtocolStateSnapshot` and
`GetExecutionResultForBlockID` always return the fixed
not-implemented error directing the caller to a Flow access node, and
never a successful response, regardless of the request payload. -/
theorem c6_unimplemented_endpoints (s : Server) :
    (∀ req : Nat, SendTransaction s req =
      Res.err "SendTransaction is not implemented by the Flow DPS API; please use the Flow Access API on a Flow access node directly") ∧
    (∀ req : Unit, GetLatestProtocolStateSnapshot s req =
      Res.err "GetLatestProtocolSnapshot is not implemented by the Flow DPS API; please use the Flow Access API on a Flow access node directly") ∧
    (∀ req : Nat, GetExecutionResultForBlockID s req =
      Res.err "GetExecutionResultForBlockID is not implemented by the Flow DPS API; please use the Flow Access API on a Flow access node directly") :=
  ⟨fun _ => rfl, fun _ => rfl, fun _ => rfl⟩

/-- Each seal message produced by the seal-assembly loop has an empty
signature list and carries the block and result IDs of a stored seal. -/
lemma buildSeals_sound (idx : Reader) :
    ∀ (ids : List Nat) (seals : List SealMsg),
      buildSeals idx ids = Except.ok seals →
      ∀ sm ∈ seals, sm.executionReceiptSignatures = [] ∧
        ∃ sealID sl, idx.sealByID sealID = Except.ok sl ∧
          sm.blockId = sl.blockID ∧ sm.executionReceiptId = sl.resultID := by
  intro ids
  induction ids with
  | nil =>
    intro seals hok sm hsm
    simp only [buildSeals] at hok
    injection hok with hok
    subst hok
    simp at hsm
  | cons id rest ih =>
    intro seals hok sm hsm
    cases hsl : idx.sealByID id with
    | error e => simp [buildSeals, hsl] at hok
    | ok sl =>
      cases htail : buildSeals idx rest with
      | error e => simp [buildSeals, hsl, htail] at hok
      | ok tail =>
        simp only [buildSeals, hsl, htail] at hok
        injection hok with hok
        subst hok
        rcases List.mem_cons.mp hsm with heq | hmem
        · subst heq
          exact ⟨rfl, id, sl, hsl, rfl, rfl⟩
        · exact ih tail htail sm hmem

/-- A successful `GetBlockByHeight` response satisfies
`SealsFromIndex`. -/
lemma getBlockByHeight_sealsFromIndex (s : Server) (h : Nat)
    (resp : BlockResponse) (hok : GetBlockByHeight s h = Res.ok resp) :
    SealsFromIndex s resp := by
  cases hhdr : s.index.header h with
  | error e => simp [GetBlockByHeight, hhdr] at hok
  | ok header =>
    cases hsl : s.index.sealsByHeight h with
    | error e => simp [GetBlockByHeight, hhdr, hsl] at hok
    | ok sealIDs =>
      cases hbs : buildSeals s.index sealIDs with
      | error e => simp [GetBlockByHeight, hhdr, hsl, hbs] at hok
      | ok seals =>
        cases hc : s.index.collectionsByHeight h with
        | error e => simp [GetBlockByHeight, hhdr, hsl, hbs, hc] at hok
        | ok collIDs =>
          cases hbg : buildGuarantees s.index collIDs with
          | error e => simp [GetBlockByHeight, hhdr, hsl, hbs, hc, hbg] at hok
          | ok collections =>
            simp only [GetBlockByHeight, hhdr, hsl, hbs, hc, hbg] at hok
            injection hok with hok
            subst hok
            intro sm hsm
            exact buildSeals_sound s.index sealIDs seals hbs sm hsm

/-- Claim C7: for every successful `GetBlockByHeight`, `GetBlockByID`
or `GetLatestBlock` response, every seal in the response carries the
stored seal's `BlockID` and `ResultID` and an empty signature list;
seal signatures are never populated from any source. -/
theorem c7_seal_signatures_empty (s : Server) :
    (∀ h resp, GetBlockByHeight s h = Res.ok resp → SealsFromIndex s resp) ∧
    (∀ id resp, GetBlockByID s id = Res.ok resp → SealsFromIndex s resp) ∧
    (∀ resp, GetLatestBlock s = Res.ok resp → SealsFromIndex s resp) := by
  refine ⟨fun h resp hok => getBlockByHeight_sealsFromIndex s h resp hok, ?_, ?_⟩
  · intro id resp hok
    cases hres : s.index.heightForBlock id with
    | error e => simp [GetBlockByID, hres] at hok
    | ok height =>
      simp only [GetBlockByID, hres] at hok
      exact getBlockByHeight_sealsFromIndex s height resp hok
  · intro resp hok
    cases hres : s.index.last with
    | error e => simp [GetLatestBlock, hres] at hok
    | ok height =>
      simp only [GetLatestBlock, hres] at hok
      exact getBlockByHeight_sealsFromIndex s height resp hok

/-- Witness for C7: the block assembled at height 0 on `sealServer`
projects its single stored seal with an empty signature list. -/
theorem c7_seal_signatures_empty_witness : SealsFromIndex sealServer c7Resp :=
  (c7_seal_signatures_empty sealServer).1 0 c7Resp rfl

/-- The per-transaction message loop pairs each indexed transaction ID
with the fetched transaction, in order. -/
lemma buildTxMessages_sound (s : Server) :
    ∀ (tids : List Nat) (txs : List Transaction),
      buildTxMessages s tids = Res.ok txs →
      List.Forall₂ (fun tid tx => s.index.transaction tid = Except.ok tx)
        tids txs := by
  intro tids
  induction tids with
  | nil =>
    intro txs hok
    simp only [buildTxMessages] at hok
    injection hok with hok
    subst hok
    exact List.Forall₂.nil
  | cons tid rest ih =>
    intro txs hok
    cases hti : s.index.transaction tid with
    | error e => simp [buildTxMessages, GetTransaction, hti] at hok
    | ok tx =>
      cases htail : buildTxMessages s rest with
      | ok tail =>
        simp only [buildTxMessages, GetTransaction, hti, htail] at hok
        injection hok with hok
        subst hok
        exact List.Forall₂.cons hti (ih tail htail)
      | err e => simp [buildTxMessages, GetTransaction, hti, htail] at hok
      | panic => simp [buildTxMessages, GetTransaction, hti, htail] at hok
      | diverge => simp [buildTxMessages, GetTransaction, hti, htail] at hok

/-- Claim C9 (implicit): every successful `GetTransactionsByBlockID`
response consists of the block's indexed transactions in index order
followed by exactly one system chunk transaction derived from the
header's chain ID, so the response has one more transaction than the
index records for that height. -/
theorem c9_system_tx_appended (s : Server) (bid : Nat)
    (resp : TransactionsResponse)
    (hok : GetTransactionsByBlockID s bid = Res.ok resp) :
    ∃ h txIDs hdr sysTx txs,
      s.index.heightForBlock bid = Except.ok h ∧
      s.index.transactionsByHeight h = Except.ok txIDs ∧
      s.index.header h = Except.ok hdr ∧
      s.systemChunkTransaction hdr.chainID = Except.ok sysTx ∧
      List.Forall₂ (fun tid tx => s.index.transaction tid = Except.ok tx)
        txIDs txs ∧
      resp.transactions = txs ++ [sysTx] ∧
      resp.transactions.length = txIDs.length + 1 := by
  cases hh : s.index.heightForBlock bid with
  | error e => simp [GetTransactionsByBlockID, hh] at hok
  | ok h =>
    cases hhdr : s.index.header h with
    | error e =>
      simp [GetTransactionsByBlockID, GetBlockHeaderByHeight, hh, hhdr] at hok
    | ok hdr =>
      cases hsid : s.decodeSignerIDs hdr with
      | error e =>
        simp [GetTransactionsByBlockID, GetBlockHeaderByHeight, hh, hhdr,
          hsid] at hok
      | ok sids =>
        cases htx : s.index.transactionsByHeight h with
        | error e =>
          simp [GetTransactionsByBlockID, GetBlockHeaderByHeight,
            blockHeaderToMessage, messageToBlockHeader, hh, hhdr, hsid,
            htx] at hok
        | ok txIDs =>
          cases hbm : buildTxMessages s txIDs with
          | ok txs =>
            cases hsys : s.systemChunkTransaction hdr.chainID with
            | error e =>
              simp [GetTransactionsByBlockID, GetBlockHeaderByHeight,
                blockHeaderToMessage, messageToBlockHeader, hh, hhdr, hsid,
                htx, hbm, hsys] at hok
            | ok sysTx =>
              simp only [GetTransactionsByBlockID, GetBlockHeaderByHeight,
                blockHeaderToMessage, messageToBlockHeader, hh, hhdr, hsid,
                htx, hbm, hsys] at hok
              injection hok with hok
              subst hok
              have hfa := buildTxMessages_sound s txIDs txs hbm
              refine ⟨h, txIDs, hdr, sysTx, txs, ?_, ?_, ?_, ?_, hfa,
                rfl, ?_⟩
              · rfl
              · exact htx
              · exact hhdr
              · exact hsys
              have hlen := List.Forall₂.length_eq hfa
              simp [transactionToMessage, hlen]
          | err e =>
            simp [GetTransactionsByBlockID, GetBlockHeaderByHeight,
              blockHeaderToMessage, messageToBlockHeader, hh, hhdr, hsid,
              htx, hbm] at hok
          | panic =>
            simp [GetTransactionsByBlockID, GetBlockHeaderByHeight,
              blockHeaderToMessage, messageToBlockHeader, hh, hhdr, hsid,
              htx, hbm] at hok
          | diverge =>
            simp [GetTransactionsByBlockID, GetBlockHeaderByHeight,
              blockHeaderToMessage, messageToBlockHeader, hh, hhdr, hsid,
              htx, hbm] at hok

/-- Witness for C9: on `c9Server` (one indexed transaction, system
chunk transaction 77) the response is the indexed transaction followed
by the system transaction. -/
theorem c9_system_tx_appended_witness :
    ∃ h txIDs hdr sysTx txs,
      c9Server.index.heightForBlock 1 = Except.ok h ∧
      c9Server.index.transactionsByHeight h = Except.ok txIDs ∧
      c9Server.index.header h = Except.ok hdr ∧
      c9Server.systemChunkTransaction hdr.chainID = Except.ok sysTx ∧
      List.Forall₂
        (fun tid tx => c9Server.index.transaction tid = Except.ok tx)
        txIDs txs ∧
      (TransactionsResponse.mk [⟨11⟩, ⟨77⟩]).transactions = txs ++ [sysTx] ∧
      (TransactionsResponse.mk [⟨11⟩, ⟨77⟩]).transactions.length =
        txIDs.length + 1 :=
  c9_system_tx_appended c9Server 1 (TransactionsResponse.mk [⟨11⟩, ⟨77⟩]) rfl

/-- A record produced by the per-ID event body carries the supplied
block ID. -/
lemma processBlockID_blockId (s : Server) (types : List String) (id : Nat)
    (r : EventsResult) (hok : processBlockID s types id = Except.ok r) :
    r.blockId = id := by
  cases hh : s.index.heightForBlock id with
  | error e => simp [processBlockID, hh] at hok
  | ok height =>
    cases he : s.index.events height types with
    | error e => simp [processBlockID, hh, he] at hok
    | ok ee =>
      cases hhd : s.index.header height with
      | error e => simp [processBlockID, hh, he, hhd] at hok
      | ok header =>
        simp only [processBlockID, hh, he, hhd] at hok
        injection hok with hok
        subst hok
        rfl

/-- The `GetEventsForBlockIDs` loop emits one record per supplied ID,
in the order of the supplied list, when every per-ID body succeeds. -/
lemma blockIDsLoop_sound (s : Server) (types : List String) :
    ∀ (ids : List Nat) (acc : List EventsResult),
      (∀ id ∈ ids, ∃ r, processBlockID s types id = Except.ok r) →
      ∃ results,
        blockIDsLoop s types ids acc = Res.ok { results := acc ++ results } ∧
        List.Forall₂
          (fun id r => processBlockID s types id = Except.ok r ∧
            r.blockId = id) ids results := by
  intro ids
  induction ids with
  | nil =>
    intro acc _
    exact ⟨[], by simp [blockIDsLoop], List.Forall₂.nil⟩
  | cons id rest ih =>
    intro acc hsucc
    obtain ⟨r, hr⟩ := hsucc id (List.mem_cons_self id rest)
    obtain ⟨results, hloop, hfa⟩ :=
      ih (acc ++ [r]) (fun i hi => hsucc i (List.mem_cons_of_mem id hi))
    refine ⟨r :: results, ?_,
      List.Forall₂.cons ⟨hr, processBlockID_blockId s types id r hr⟩ hfa⟩
    simp only [blockIDsLoop, hr]
    rw [hloop]
    simp

/-- Claim C5: for every `GetEventsForBlockIDs` request whose per-block
lookups all succeed, the result records appear in exactly the order of
the supplied block-ID list — one record per supplied ID — not sorted by
height. -/
theorem c5_block_ids_order (s : Server) (typ : String) (ids : List Nat)
    (hsucc : ∀ id ∈ ids, ∃ r, processBlockID s (typesOf typ) id = Except.ok r) :
    ∃ resp,
      GetEventsForBlockIDs s { typ := typ, blockIds := ids } = Res.ok resp ∧
      List.Forall₂
        (fun id r => processBlockID s (typesOf typ) id = Except.ok r ∧
          r.blockId = id) ids resp.results := by
  obtain ⟨results, hloop, hfa⟩ :=
    blockIDsLoop_sound s (typesOf typ) ids [] hsucc
  exact ⟨{ results := results }, by simpa [GetEventsForBlockIDs] using hloop,
    hfa⟩

/-- Witness for C5: on the all-succeeding index the records for the ID
list `[9, 3]` come back in exactly that order (block 9 resolves to
height 9, block 3 to height 3 — not height order). -/
theorem c5_block_ids_order_witness :
    ∃ resp,
      GetEventsForBlockIDs totalServer { typ := "", blockIds := [9, 3] } =
        Res.ok resp ∧
      List.Forall₂
        (fun id r => processBlockID totalServer (typesOf "") id =
          Except.ok r ∧ r.blockId = id) [9, 3] resp.results :=
  c5_block_ids_order totalServer "" [9, 3] (fun id _ => ⟨_, rfl⟩)

/-- When some argument in the list fails to decode, the decode loop
returns an error (the first failure, wrapped). -/
lemma decodeArguments_error (dec : List Nat → Except String Nat) :
    ∀ l : List (List Nat),
      (∃ a ∈ l, ∃ e, dec a = Except.error e) →
      ∃ msg, decodeArguments dec l = Except.error msg := by
  intro l
  induction l with
  | nil =>
    rintro ⟨a, ha, _⟩
    simp at ha
  | cons a rest ih =>
    rintro ⟨b, hb, e, he⟩
    cases hda : dec a with
    | error e2 =>
      exact ⟨"could not decode script argument: " ++ e2,
        by simp [decodeArguments, hda]⟩
    | ok v =>
      rcases List.mem_cons.mp hb with heq | hbr
      · subst heq
        rw [hda] at he
        cases he
      · obtain ⟨msg, hmsg⟩ := ih ⟨b, hbr, e, he⟩
        exact ⟨msg, by simp [decodeArguments, hda, hmsg]⟩

/-- Claim C8: for every `ExecuteScriptAtBlockHeight` request in which
some wire-encoded argument fails to decode under the Cadence JSON
encoding, the operation returns an error, and the result — the same
error — is independent of the invoker: the script invoker is never
called for that request. -/
theorem c8_decode_failure_skips_invoker (s : Server)
    (req : ExecuteScriptAtBlockHeightRequest)
    (harg : ∃ arg ∈ req.arguments, ∃ e, s.decodeArg arg = Except.error e) :
    ∃ msg, ∀ inv : Invoker,
      ExecuteScriptAtBlockHeight { s with invoker := inv } req =
        Res.err msg := by
  obtain ⟨msg, hmsg⟩ := decodeArguments_error s.decodeArg req.arguments harg
  exact ⟨msg, fun inv => by simp [ExecuteScriptAtBlockHeight, hmsg]⟩

/-- Witness for C8: with a decoder rejecting every argument, the script
endpoint fails identically for every invoker. -/
theorem c8_decode_failure_skips_invoker_witness :
    ∃ msg, ∀ inv : Invoker,
      ExecuteScriptAtBlockHeight { badDecodeServer with invoker := inv }
        { blockHeight := 7, script := [1], arguments := [[3]] } =
        Res.err msg :=
  c8_decode_failure_skips_invoker badDecodeServer
    { blockHeight := 7, script := [1], arguments := [[3]] }
    ⟨[3], by simp, "bad", rfl⟩

/-- When the end height is below the `uint64` maximum and every height
in `[height, endH]` succeeds, the range loop returns one record per
height, in ascending height order, appended after the accumulator. -/
lemma eventsLoop_ok (s : Server) (types : List String) (endH : Nat) :
    ∀ (fuel height : Nat) (acc : List EventsResult),
      endH + 1 < U64MOD →
      endH + 1 - height < fuel →
      (∀ hh, height ≤ hh → hh ≤ endH →
        ∃ r, processHeight s types hh = Except.ok r) →
      ∃ results,
        eventsLoop s types endH fuel height acc =
          Res.ok { results := acc ++ results } ∧
        results.length = endH + 1 - height ∧
        ∀ i (hi : i < results.length),
          processHeight s types (height + i) =
            Except.ok (results.get ⟨i, hi⟩) := by
  intro fuel
  induction fuel with
  | zero =>
    intro height acc _ hfuel _
    exact absurd hfuel (Nat.not_lt_zero _)
  | succ n ih =>
    intro height acc hmod hfuel hsucc
    by_cases hgt : height > endH
    · refine ⟨[], by simp [eventsLoop, hgt],
        by simp only [List.length_nil]; omega, ?_⟩
      intro i hi
      simp at hi
    · have hle : height ≤ endH := by omega
      obtain ⟨r, hr⟩ := hsucc height le_rfl hle
      have hwrap : (height + 1) % U64MOD = height + 1 :=
        Nat.mod_eq_of_lt (by omega)
      obtain ⟨results, hloop, hlen, hidx⟩ :=
        ih (height + 1) (acc ++ [r]) hmod (by omega)
          (fun hh h1 h2 => hsucc hh (by omega) h2)
      refine ⟨r :: results, ?_, by simp [hlen]; omega, ?_⟩
      · simp only [eventsLoop, if_neg hgt, hr, hwrap]
        rw [hloop]
        simp
      · intro i hi
        cases i with
        | zero => simpa using hr
        | succ j =>
          have hj : j < results.length := by simp at hi; omega
          have hpj := hidx j hj
          have harith : height + (j + 1) = height + 1 + j := by omega
          rw [harith]
          simpa using hpj

/-- Claim C3, amended for the `uint64` wraparound: for every event
range query with `start ≤ end` and `end` strictly below the maximum
`uint64` value, in which every per-height lookup succeeds,
`GetEventsForHeightRange` returns exactly `end - start + 1` result
records, one per height in ascending order; a height with zero events
yields a record with an empty event list rather than an error. -/
theorem c3_range_count (s : Server) (typ : String) (startH endH : Nat)
    (hrange : startH ≤ endH) (hend : endH < U64MOD - 1)
    (hsucc : ∀ h, startH ≤ h → h ≤ endH →
      ∃ r, processHeight s (typesOf typ) h = Except.ok r) :
    ∃ resp,
      GetEventsForHeightRange s
        { typ := typ, startHeight := startH, endHeight := endH } =
        Res.ok resp ∧
      resp.results.length = endH - startH + 1 ∧
      ∀ i (hi : i < resp.results.length),
        processHeight s (typesOf typ) (startH + i) =
          Except.ok (resp.results.get ⟨i, hi⟩) := by
  have hU : U64MOD = 18446744073709551616 := by norm_num [U64MOD]
  obtain ⟨results, hloop, hlen, hidx⟩ :=
    eventsLoop_ok s (typesOf typ) endH (U64MOD + 1) startH []
      (by omega) (by omega) hsucc
  refine ⟨{ results := results }, ?_, ?_, ?_⟩
  · simpa [GetEventsForHeightRange] using hloop
  · show results.length = endH - startH + 1
    omega
  · intro i hi
    exact hidx i hi

/-- Witness for the amended C3: the range `[2, 4]` on the
all-succeeding index yields three records. -/
theorem c3_range_count_witness :
    ∃ resp,
      GetEventsForHeightRange totalServer
        { typ := "", startHeight := 2, endHeight := 4 } = Res.ok resp ∧
      resp.results.length = 4 - 2 + 1 ∧
      ∀ i (hi : i < resp.results.length),
        processHeight totalServer (typesOf "") (2 + i) =
          Except.ok (resp.results.get ⟨i, hi⟩) :=
  c3_range_count totalServer "" 2 4 (by norm_num)
    (by norm_num [U64MOD]) (fun h _ _ => ⟨_, rfl⟩)

/-- On the all-succeeding index with end height `2 ^ 64 - 1`, the range
loop exhausts any fuel: every iteration's guard holds (every `uint64`
height is at most the maximum) and every body succeeds, so the loop
never returns. -/
lemma eventsLoop_total_diverge :
    ∀ (fuel height : Nat) (acc : List EventsResult), height < U64MOD →
      eventsLoop totalServer (typesOf "") (U64MOD - 1) fuel height acc =
        Res.diverge := by
  intro fuel
  induction fuel with
  | zero => intro height acc _; rfl
  | succ n ih =>
    intro height acc hlt
    have hU : U64MOD = 18446744073709551616 := by norm_num [U64MOD]
    have hngt : ¬ (height > U64MOD - 1) := by omega
    have hp : processHeight totalServer (typesOf "") height =
        Except.ok (EventsResult.mk hdr0.id height hdr0.timestamp []) := rfl
    simp only [eventsLoop, if_neg hngt, hp]
    exact ih _ _ (Nat.mod_lt _ (by omega))

/-- Counterexample to C3 as stated: with the all-succeeding index,
`start = 0` and `end = 2 ^ 64 - 1`, every per-height lookup succeeds,
yet the call returns no response at all — the `uint64` height counter
wraps and the loop never terminates, so it does not return
`end - start + 1` records. -/
theorem c3_counterexample_wraparound :
    totalSucceeds ∧
    GetEventsForHeightRange totalServer
      { typ := "", startHeight := 0, endHeight := U64MOD - 1 } =
      Res.diverge :=
  ⟨fun h => ⟨_, rfl⟩,
    eventsLoop_total_diverge (U64MOD + 1) 0 [] (by norm_num [U64MOD])⟩

/-- When the end height is below the `uint64` maximum, the range loop
cannot exhaust its fuel: it exits by the counting guard or by a lookup
error. -/
lemma eventsLoop_no_diverge (s : Server) (types : List String) (endH : Nat) :
    ∀ (fuel height : Nat) (acc : List EventsResult),
      endH + 1 < U64MOD →
      endH + 1 - height < fuel →
      eventsLoop s types endH fuel height acc ≠ Res.diverge := by
  intro fuel
  induction fuel with
  | zero =>
    intro height acc _ hfuel
    exact absurd hfuel (Nat.not_lt_zero _)
  | succ n ih =>
    intro height acc hmod hfuel
    by_cases hgt : height > endH
    · simp [eventsLoop, hgt]
    · have hwrap : (height + 1) % U64MOD = height + 1 :=
        Nat.mod_eq_of_lt (by omega)
      cases hp : processHeight s types height with
      | error e => simp [eventsLoop, if_neg hgt, hp]
      | ok r =>
        simp only [eventsLoop, if_neg hgt, hp, hwrap]
        exact ih (height + 1) (acc ++ [r]) hmod (by omega)

/-- Claim C10, amended for the `uint64` wraparound: whenever the
requested `EndHeight` is strictly below the maximum `uint64` value,
`GetEventsForHeightRange` terminates — it returns a response or an
error, never looping forever — for every `StartHeight` and every index.
(At `EndHeight = 2 ^ 64 - 1` the loop guard can never become false by
counting, and with an index whose per-height lookups all succeed the
call never returns; see the counterexample.) -/
theorem c10_termination (s : Server) (typ : String) (startH endH : Nat)
    (hend : endH < U64MOD - 1) :
    GetEventsForHeightRange s
      { typ := typ, startHeight := startH, endHeight := endH } ≠
      Res.diverge := by
  have hU : U64MOD = 18446744073709551616 := by norm_num [U64MOD]
  exact eventsLoop_no_diverge s (typesOf typ) endH (U64MOD + 1) startH []
    (by omega) (by omega)

/-- Witness for the amended C10: a concrete call (empty index, range
`[5, 3]`) does not diverge. -/
theorem c10_termination_witness :
    GetEventsForHeightRange baseServer
      { typ := "", startHeight := 5, endHeight := 3 } ≠ Res.diverge :=
  c10_termination baseServer "" 5 3 (by norm_num [U64MOD])

/-- Counterexample to C10 as stated: at `EndHeight = 2 ^ 64 - 1` with
the all-succeeding index, `GetEventsForHeightRange` does not terminate
— the wrapped height counter keeps the guard true forever and no lookup
ever fails. -/
theorem c10_counterexample_max_end :
    GetEventsForHeightRange totalServer
      { typ := "", startHeight := 1, endHeight := U64MOD - 1 } =
      Res.diverge :=
  eventsLoop_total_diverge (U64MOD + 1) 1 [] (by norm_num [U64MOD])

end Archive
